import Mathlib

/-
Shallow embedding of the HTTP request helper, the endpoint registry and the
environment loader of a Playwright test-automation template repository.

Embedded modules:
  * src/api/common-api-requests.ts   (sendCommonApiRequest, generateCommonHeaders)
  * src/api/http-methods.ts          (HttpMethods enum)
  * src/api/models/common.interfaces.ts (CommonApiData, CommonApiOptions)
  * src/api/config/urls.ts           (urlsSchema, urlsConfig, urls)
  * src/utils/env_helper/env.ts      (schema, env)

The two effectful dependencies of sendCommonApiRequest — the process
environment variable API_BASE_URL and the axios transport — are passed in
explicitly: the environment as an `Option String` and axios as a pure
`server : AxiosRequest → AxiosResponse` oracle describing what the network
answers to each request.  axios's behaviour with a `validateStatus` config is
modelled as in its documentation: the response is obtained, `validateStatus`
is applied to its status, and the call throws exactly when it returns false.
Response payloads are opaque values, modelled as strings.
-/

/-- JavaScript `a || b` for an optional string `a`: both `undefined` and the
empty string are falsy, so the default `b` is taken for either. -/
def jsOr (a : Option String) (b : String) : String :=
  match a with
  | some s => if s = "" then b else s
  | none => b

/-- The string values of the `HttpMethods` enum (src/api/http-methods.ts). -/
def HttpMethods : List String := ["GET", "POST", "PUT", "DELETE", "PATCH"]

/-- `CommonApiData` (src/api/models/common.interfaces.ts): the request
descriptor.  `method` is a string at runtime (the TS enum values are strings,
and the default branch of the dispatcher handles any other string). -/
structure CommonApiData where
  baseUrl : Option String
  method : String
  endpoint : String
  body : Option String
  token : Option String
deriving Repr, DecidableEq

/-- `CommonApiOptions` (src/api/models/common.interfaces.ts).  `returnType`
is a string at runtime (the TS literal union is erased at runtime, and the
dispatcher has a default branch for any other string). -/
structure CommonApiOptions where
  allowBadRequest : Option Bool
  expectedResponseCode : Option Int
  returnType : Option String
deriving Repr, DecidableEq

/-- An axios response: HTTP status plus (opaque) payload. -/
structure AxiosResponse where
  status : Nat
  data : String
deriving Repr, DecidableEq

/-- An outgoing axios call as dispatched by the helper: method, full request
URL, body (none for GET/DELETE, whose axios signatures carry no body), and
headers. -/
structure AxiosRequest where
  method : String
  url : String
  body : Option String
  headers : List (String × String)
deriving Repr, DecidableEq

/-- `generateCommonHeaders` (src/api/common-api-requests.ts, lines 81-92):
always `accept: */*` and `Content-Type: application/json`; adds
`Authorization: Bearer <authToken>` when `authToken` is truthy (non-empty). -/
def generateCommonHeaders (authToken : String) : List (String × String) :=
  let headers : List (String × String) :=
    [("accept", "*/*"), ("Content-Type", "application/json")]
  if authToken ≠ "" then headers ++ [("Authorization", "Bearer " ++ authToken)]
  else headers

/-- How a `sendCommonApiRequest` call can throw: the `default` branch of the
method switch (`Unsupported method: <m>`), or an axios error raised because
`validateStatus` rejected the response's status. -/
inductive SendError where
  | unsupportedMethod (m : String)
  | statusError (resp : AxiosResponse)
deriving Repr, DecidableEq

/-- The three runtime return shapes of `sendCommonApiRequest`: the payload
alone (`'data'` and the default branch), the `{ response, responseData }`
record (`'both'`), or the raw response (`'full'`). -/
inductive SendReturn where
  | payload (d : String)
  | both (resp : AxiosResponse) (d : String)
  | full (resp : AxiosResponse)
deriving Repr, DecidableEq

/-- `sendCommonApiRequest` (src/api/common-api-requests.ts, lines 27-72).
`envApiBaseUrl` stands for `process.env.API_BASE_URL` and `server` for the
axios transport.  The first component is the returned value or the thrown
error; the second records the underlying axios calls dispatched, in order. -/
def sendCommonApiRequest (envApiBaseUrl : Option String)
    (server : AxiosRequest → AxiosResponse)
    (data : CommonApiData) (options : CommonApiOptions) :
    Except SendError SendReturn × List AxiosRequest :=
  let baseUrl : String :=
    (data.baseUrl).getD (jsOr envApiBaseUrl "http://localhost:3000/api")
  let allowBadRequest : Bool := (options.allowBadRequest).getD false
  let returnType : String := (options.returnType).getD "data"
  let requestUrl : String := baseUrl ++ "/" ++ data.endpoint
  let headers := generateCommonHeaders (jsOr data.token "token")
  let validateStatus : Nat → Bool :=
    fun status => allowBadRequest || decide (status < 400)
  let doCall : Option String → Except SendError AxiosResponse × List AxiosRequest :=
    fun b =>
      let req : AxiosRequest := ⟨data.method, requestUrl, b, headers⟩
      let resp := server req
      if validateStatus resp.status then (Except.ok resp, [req])
      else (Except.error (SendError.statusError resp), [req])
  let dispatched : Except SendError AxiosResponse × List AxiosRequest :=
    if data.method = "GET" then doCall none
    else if data.method = "POST" then doCall data.body
    else if data.method = "PUT" then doCall data.body
    else if data.method = "DELETE" then doCall none
    else if data.method = "PATCH" then doCall data.body
    else (Except.error (SendError.unsupportedMethod data.method), [])
  match dispatched with
  | (Except.error e, calls) => (Except.error e, calls)
  | (Except.ok response, calls) =>
      let responseData := response.data
      if returnType = "data" then (Except.ok (SendReturn.payload responseData), calls)
      else if returnType = "both" then
        (Except.ok (SendReturn.both response responseData), calls)
      else if returnType = "full" then (Except.ok (SendReturn.full response), calls)
      else (Except.ok (SendReturn.payload responseData), calls)

/-- `true` exactly when the call returned rather than threw. -/
def sendSucceeds (r : Except SendError SendReturn) : Bool :=
  match r with
  | Except.ok _ => true
  | Except.error _ => false

/- ### Endpoint registry (src/api/config/urls.ts) -/

/-- Input to the `auth` group of `urlsSchema`: each leaf is an optional
string (zod applies the leaf's `.default(...)` when it is absent). -/
structure AuthUrlsInput where
  login : Option String
  logout : Option String
  refresh : Option String
deriving Repr, DecidableEq

/-- Input to the `users` group of `urlsSchema`. -/
structure UsersUrlsInput where
  profile : Option String
  create : Option String
  update : Option String
  delete : Option String
deriving Repr, DecidableEq

/-- Input to the `template` group of `urlsSchema`. -/
structure TemplateUrlsInput where
  getData : Option String
  postData : Option String
  updateData : Option String
  deleteData : Option String
deriving Repr, DecidableEq

/-- Input mapping handed to `urlsSchema.parse`: each group key may itself be
absent (the nested `z.object`s carry no `.default`, so zod requires them). -/
structure UrlsInput where
  auth : Option AuthUrlsInput
  users : Option UsersUrlsInput
  template : Option TemplateUrlsInput
deriving Repr, DecidableEq

/-- Validated `auth` group. -/
structure AuthUrls where
  login : String
  logout : String
  refresh : String
deriving Repr, DecidableEq

/-- Validated `users` group. -/
structure UsersUrls where
  profile : String
  create : String
  update : String
  delete : String
deriving Repr, DecidableEq

/-- Validated `template` group. -/
structure TemplateUrls where
  getData : String
  postData : String
  updateData : String
  deleteData : String
deriving Repr, DecidableEq

/-- The validated endpoint mapping: every schema-declared key is present. -/
structure UrlsConfig where
  auth : AuthUrls
  users : UsersUrls
  template : TemplateUrls
deriving Repr, DecidableEq

/-- zod parse of the `auth` group: each absent leaf takes its documented
`.default(...)` (urls.ts lines 11-15). -/
def parseAuthUrls (g : AuthUrlsInput) : AuthUrls :=
  ⟨g.login.getD "auth/login", g.logout.getD "auth/logout",
    g.refresh.getD "auth/refresh"⟩

/-- zod parse of the `users` group (urls.ts lines 20-25). -/
def parseUsersUrls (g : UsersUrlsInput) : UsersUrls :=
  ⟨g.profile.getD "users/profile", g.create.getD "users",
    g.update.getD "users", g.delete.getD "users"⟩

/-- zod parse of the `template` group (urls.ts lines 30-35). -/
def parseTemplateUrls (g : TemplateUrlsInput) : TemplateUrls :=
  ⟨g.getData.getD "template/data", g.postData.getD "template/data",
    g.updateData.getD "template/data", g.deleteData.getD "template/data"⟩

/-- `urlsSchema.parse` (urls.ts lines 7-36): the three group keys carry no
`.default`, so zod reports a `Required` issue (naming the key's path) for
each absent group; when all groups are present, each group is parsed with
leaf defaults.  On failure the issue list names every missing group. -/
def urlsSchemaParse (input : UrlsInput) : Except (List String) UrlsConfig :=
  match input.auth, input.users, input.template with
  | some a, some u, some t =>
      Except.ok ⟨parseAuthUrls a, parseUsersUrls u, parseTemplateUrls t⟩
  | _, _, _ =>
      Except.error
        ((if input.auth.isNone then ["auth"] else [])
          ++ (if input.users.isNone then ["users"] else [])
          ++ (if input.template.isNone then ["template"] else []))

/-- `urlsConfig` (urls.ts lines 42-60): the literal input the template ships. -/
def urlsConfig : UrlsInput :=
  ⟨some ⟨some "auth/login", some "auth/logout", some "auth/refresh"⟩,
    some ⟨some "users/profile", some "users", some "users", some "users"⟩,
    some ⟨some "template/data", some "template/data", some "template/data",
      some "template/data"⟩⟩

/-- `urls` (urls.ts line 65): the parsed registry. -/
def urls : Except (List String) UrlsConfig := urlsSchemaParse urlsConfig

/- ### Environment loader (src/utils/env_helper/env.ts) -/

/-- The process environment as seen by `schema.parse(process.env)`: the four
schema-declared variables, each possibly absent, plus whatever other
variables the process carries (zod's default object mode strips these). -/
structure EnvInput where
  BASE_URL : Option String
  API_BASE_URL : Option String
  MAIN_USER_LOGIN : Option String
  MAIN_USER_PASSWORD : Option String
  extra : List (String × String)
deriving Repr, DecidableEq

/-- The validated configuration object: exactly the four schema fields. -/
structure Env where
  BASE_URL : String
  API_BASE_URL : String
  MAIN_USER_LOGIN : String
  MAIN_USER_PASSWORD : String
deriving Repr, DecidableEq

/-- Issues of one `z.string().url()` field: a `Required` issue when absent,
an `Invalid url` issue when present but not a URL; either names the field.
URL validity itself is the library's check, abstracted as `isUrl`. -/
def checkUrlField (isUrl : String → Bool) (name : String) (v : Option String) :
    List String :=
  match v with
  | none => [name]
  | some s => if isUrl s then [] else [name]

/-- Issues of one `z.string().min(1)` field: `Required` when absent,
`too_small` when empty; either names the field. -/
def checkNonEmptyField (name : String) (v : Option String) : List String :=
  match v with
  | none => [name]
  | some s => if s = "" then [name] else []

/-- All issues zod collects for `schema.parse` (env.ts lines 16-37), in field
order: the two `.url()` fields and the two `.min(1)` fields. -/
def envIssues (isUrl : String → Bool) (input : EnvInput) : List String :=
  checkUrlField isUrl "BASE_URL" input.BASE_URL
    ++ checkUrlField isUrl "API_BASE_URL" input.API_BASE_URL
    ++ checkNonEmptyField "MAIN_USER_LOGIN" input.MAIN_USER_LOGIN
    ++ checkNonEmptyField "MAIN_USER_PASSWORD" input.MAIN_USER_PASSWORD

/-- `schema.parse` (env.ts lines 16-37): zod validates every field, collects
the issues of all offending fields into one error, and only when there is no
issue returns the stripped object of the four validated fields.  `isUrl`
abstracts zod's `.url()` absolute-URL check. -/
def schemaParse (isUrl : String → Bool) (input : EnvInput) :
    Except (List String) Env :=
  if (envIssues isUrl input).isEmpty then
    match input.BASE_URL, input.API_BASE_URL,
        input.MAIN_USER_LOGIN, input.MAIN_USER_PASSWORD with
    | some b, some a, some l, some p => Except.ok ⟨b, a, l, p⟩
    | _, _, _, _ => Except.error (envIssues isUrl input)
  else Except.error (envIssues isUrl input)

/-- A `z.string().url()` field is missing or malformed. -/
def urlFieldBad (isUrl : String → Bool) (v : Option String) : Prop :=
  v = none ∨ ∃ s, v = some s ∧ isUrl s = false

/-- A `z.string().min(1)` field is missing or malformed (empty). -/
def credFieldBad (v : Option String) : Prop :=
  v = none ∨ v = some ""

/- ### Concrete fixtures used by the witnesses -/

/-- A network oracle answering every request with HTTP 200 and payload `ok`. -/
def okServer : AxiosRequest → AxiosResponse := fun _ => ⟨200, "ok"⟩

/-- A network oracle answering every request with HTTP 401 and payload
`denied`. -/
def badServer : AxiosRequest → AxiosResponse := fun _ => ⟨401, "denied"⟩

/-- A concrete GET descriptor. -/
def getProfileData : CommonApiData :=
  ⟨some "https://x.test/api", "GET", "users/profile", none, some "tok"⟩

/-- A concrete descriptor whose caller-supplied token is the empty string. -/
def emptyTokenData : CommonApiData :=
  ⟨some "https://x.test/api", "GET", "users/profile", none, some ""⟩

/-- A concrete descriptor with no `baseUrl` override. -/
def noBaseData : CommonApiData := ⟨none, "GET", "x", none, some "tok"⟩

/-- A concrete descriptor with an unrecognized method string. -/
def fetchMethodData : CommonApiData :=
  ⟨some "https://x.test/api", "FETCH", "users/profile", none, some "tok"⟩

/-- The empty options object `{}`. -/
def defaultOptions : CommonApiOptions := ⟨none, none, none⟩

/-- Options selecting the `'both'` return shape. -/
def bothOptions : CommonApiOptions := ⟨none, none, some "both"⟩

/-- Options with allowBadRequest set. -/
def allowOptions : CommonApiOptions := ⟨some true, none, none⟩

/-- Options with an unrecognized `returnType` string. -/
def weirdOptions : CommonApiOptions := ⟨none, none, some "raw"⟩

/-- A concrete stand-in for zod's absolute-URL check: the string opens with
an `https://` scheme prefix. -/
def startsHttps : String → Bool := fun s => s.data.take 8 = "https://".data

/-- A fully valid environment input (with an unrelated extra variable). -/
def goodEnvInput : EnvInput :=
  ⟨some "https://x.test", some "https://x.test/api", some "u@x.test", some "p",
    [("CI", "1")]⟩

/-- An environment input missing `MAIN_USER_PASSWORD`. -/
def badEnvInput : EnvInput :=
  ⟨some "https://x.test", some "https://x.test/api", some "u@x.test", none, []⟩

/-- A urls input whose `auth` group is entirely omitted (its other groups
present but empty, so every leaf would take its default). -/
def missingAuthInput : UrlsInput :=
  ⟨none, some ⟨none, none, none, none⟩, some ⟨none, none, none, none⟩⟩

/-- A urls input with all groups present but every leaf omitted. -/
def emptyGroupsInput : UrlsInput :=
  ⟨some ⟨none, none, none⟩, some ⟨none, none, none, none⟩,
    some ⟨none, none, none, none⟩⟩

/- ### Characterization lemmas for sendCommonApiRequest -/

/-- The single axios request a recognized-method call dispatches. -/
def builtRequest (envApiBaseUrl : Option String) (data : CommonApiData) :
    AxiosRequest :=
  ⟨data.method,
    (data.baseUrl).getD (jsOr envApiBaseUrl "http://localhost:3000/api")
      ++ "/" ++ data.endpoint,
    if data.method = "GET" ∨ data.method = "DELETE" then none else data.body,
    generateCommonHeaders (jsOr data.token "token")⟩

/-- Characterization of `sendCommonApiRequest` on a recognized method: one
axios call is made, on the request `builtRequest`; the outcome is gated by
`allowBadRequest || status < 400` and shaped by `returnType`. -/
lemma sendCommonApiRequest_recognized (envApi : Option String)
    (server : AxiosRequest → AxiosResponse)
    (data : CommonApiData) (options : CommonApiOptions)
    (hm : data.method ∈ HttpMethods) :
    sendCommonApiRequest envApi server data options =
      (if (options.allowBadRequest).getD false
          || decide ((server (builtRequest envApi data)).status < 400) then
        (Except.ok
          (if (options.returnType).getD "data" = "data" then
            SendReturn.payload (server (builtRequest envApi data)).data
          else if (options.returnType).getD "data" = "both" then
            SendReturn.both (server (builtRequest envApi data))
              (server (builtRequest envApi data)).data
          else if (options.returnType).getD "data" = "full" then
            SendReturn.full (server (builtRequest envApi data))
          else SendReturn.payload (server (builtRequest envApi data)).data),
          [builtRequest envApi data])
      else
        (Except.error (SendError.statusError (server (builtRequest envApi data))),
          [builtRequest envApi data])) := by
  simp only [HttpMethods, List.mem_cons, List.not_mem_nil, or_false] at hm
  by_cases hab : (options.allowBadRequest).getD false = true <;>
  by_cases h1 : (options.returnType).getD "data" = "data" <;>
  by_cases h2 : (options.returnType).getD "data" = "both" <;>
  by_cases h3 : (options.returnType).getD "data" = "full" <;>
  rcases Decidable.em ((server (builtRequest envApi data)).status < 400) with hs | hs <;>
  rcases hm with hm | hm | hm | hm | hm <;>
  simp_all [sendCommonApiRequest, builtRequest] <;>
  rw [if_neg (Nat.not_lt.mpr hs), if_neg (Nat.not_lt.mpr hs)]

/-- Characterization of `sendCommonApiRequest` on an unrecognized method:
it throws `Unsupported method: <m>` and dispatches no axios call. -/
lemma sendCommonApiRequest_unrecognized (envApi : Option String)
    (server : AxiosRequest → AxiosResponse)
    (data : CommonApiData) (options : CommonApiOptions)
    (hm : data.method ∉ HttpMethods) :
    sendCommonApiRequest envApi server data options =
      (Except.error (SendError.unsupportedMethod data.method), []) := by
  simp only [HttpMethods, List.mem_cons, List.not_mem_nil, or_false, not_or] at hm
  obtain ⟨h1, h2, h3, h4, h5⟩ := hm
  simp [sendCommonApiRequest, h1, h2, h3, h4, h5]

/-- A bad `.url()` field contributes exactly its own name to the issues. -/
lemma checkUrlField_of_bad (isUrl : String → Bool) (n : String) (v : Option String)
    (h : urlFieldBad isUrl v) : checkUrlField isUrl n v = [n] := by
  rcases h with rfl | ⟨s, rfl, hbad⟩
  · simp [checkUrlField]
  · simp [checkUrlField, hbad]

/-- A bad `.min(1)` field contributes exactly its own name to the issues. -/
lemma checkNonEmptyField_of_bad (n : String) (v : Option String)
    (h : credFieldBad v) : checkNonEmptyField n v = [n] := by
  rcases h with rfl | rfl <;> simp [checkNonEmptyField]

/-- When some field has an issue, `schema.parse` throws the collected issues. -/
lemma schemaParse_error_of_mem (isUrl : String → Bool) (input : EnvInput)
    (n : String) (h : n ∈ envIssues isUrl input) :
    schemaParse isUrl input = Except.error (envIssues isUrl input) := by
  have hne : (envIssues isUrl input).isEmpty = false := by
    cases henv : envIssues isUrl input with
    | nil => rw [henv] at h; cases h
    | cons x xs => rfl
  simp [schemaParse, hne]

/-- C9: `options.expectedResponseCode` is accepted but never consulted: two
calls whose options agree on `allowBadRequest` and `returnType` (and hence
differ at most in `expectedResponseCode`) have identical observable
behavior — the same axios calls and the same returned value or error. -/
theorem C9_expectedResponseCode_never_consulted (envApi : Option String)
    (server : AxiosRequest → AxiosResponse) (data : CommonApiData)
    (o1 o2 : CommonApiOptions)
    (hallow : o1.allowBadRequest = o2.allowBadRequest)
    (hret : o1.returnType = o2.returnType) :
    sendCommonApiRequest envApi server data o1 =
      sendCommonApiRequest envApi server data o2 := by
  simp only [sendCommonApiRequest, hallow, hret]

/-- Witness for C9: options `{}` versus `{ expectedResponseCode: 404 }`. -/
theorem C9_witness :
    defaultOptions.allowBadRequest = (⟨none, some 404, none⟩ : CommonApiOptions).allowBadRequest ∧
    defaultOptions.returnType = (⟨none, some 404, none⟩ : CommonApiOptions).returnType ∧
    sendCommonApiRequest none okServer getProfileData defaultOptions =
      sendCommonApiRequest none okServer getProfileData ⟨none, some 404, none⟩ :=
  ⟨rfl, rfl,
    C9_expectedResponseCode_never_consulted none okServer getProfileData
      defaultOptions ⟨none, some 404, none⟩ rfl rfl⟩

/-- C10: a `returnType` outside `data`/`both`/`full` hits the dispatcher's
default branch, so the whole call behaves exactly as with `returnType`
`'data'` — in particular it does not fail because of the unknown shape and,
when the request succeeds, returns the payload only. -/
theorem C10_unknown_returnType_behaves_as_data (envApi : Option String)
    (server : AxiosRequest → AxiosResponse) (data : CommonApiData)
    (options : CommonApiOptions) (rt : String)
    (hrt : options.returnType = some rt)
    (h1 : rt ≠ "data") (h2 : rt ≠ "both") (h3 : rt ≠ "full") :
    sendCommonApiRequest envApi server data options =
      sendCommonApiRequest envApi server data
        ⟨options.allowBadRequest, options.expectedResponseCode, some "data"⟩ := by
  simp only [sendCommonApiRequest, hrt, Option.getD_some]
  simp [h1, h2, h3]

/-- Witness for C10: `returnType: 'raw'` behaves as `'data'`. -/
theorem C10_witness :
    weirdOptions.returnType = some "raw" ∧
    ("raw" : String) ≠ "data" ∧ ("raw" : String) ≠ "both" ∧ ("raw" : String) ≠ "full" ∧
    sendCommonApiRequest none okServer getProfileData weirdOptions =
      sendCommonApiRequest none okServer getProfileData
        ⟨weirdOptions.allowBadRequest, weirdOptions.expectedResponseCode, some "data"⟩ :=
  ⟨rfl, by decide, by decide, by decide,
    C10_unknown_returnType_behaves_as_data none okServer getProfileData
      weirdOptions "raw" rfl (by decide) (by decide) (by decide)⟩

/-- C7: every axios call a `sendCommonApiRequest` invocation dispatches has
as its URL the resolved base URL and the relative endpoint joined by exactly
one inserted separating slash: `baseUrl ++ "/" ++ endpoint`. -/
theorem C7_url_single_slash_join (envApi : Option String)
    (server : AxiosRequest → AxiosResponse) (data : CommonApiData)
    (options : CommonApiOptions) (hm : data.method ∈ HttpMethods) :
    ∀ req ∈ (sendCommonApiRequest envApi server data options).2,
      req.url = (data.baseUrl).getD (jsOr envApi "http://localhost:3000/api")
        ++ "/" ++ data.endpoint := by
  rw [sendCommonApiRequest_recognized envApi server data options hm]
  split <;> simp [builtRequest]

/-- Witness for C7. -/
theorem C7_witness :
    getProfileData.method ∈ HttpMethods ∧
    ∀ req ∈ (sendCommonApiRequest none okServer getProfileData defaultOptions).2,
      req.url = (getProfileData.baseUrl).getD (jsOr none "http://localhost:3000/api")
        ++ "/" ++ getProfileData.endpoint :=
  ⟨by decide,
    C7_url_single_slash_join none okServer getProfileData defaultOptions (by decide)⟩

/-- C6: a recognized method dispatches exactly one underlying axios call; an
unrecognized method throws `Unsupported method: <m>` naming the method,
dispatches no axios call, and performs no retry. -/
theorem C6_method_dispatch (envApi : Option String)
    (server : AxiosRequest → AxiosResponse) (data : CommonApiData)
    (options : CommonApiOptions) :
    (data.method ∈ HttpMethods →
      (sendCommonApiRequest envApi server data options).2.length = 1) ∧
    (data.method ∉ HttpMethods →
      (sendCommonApiRequest envApi server data options).1 =
        Except.error (SendError.unsupportedMethod data.method) ∧
      (sendCommonApiRequest envApi server data options).2 = []) := by
  constructor
  · intro hm
    rw [sendCommonApiRequest_recognized envApi server data options hm]
    split <;> simp
  · intro hm
    rw [sendCommonApiRequest_unrecognized envApi server data options hm]
    exact ⟨rfl, rfl⟩

/-- Witness for C6: a GET call dispatches once; a `FETCH` call throws the
naming error and dispatches nothing. -/
theorem C6_witness :
    (sendCommonApiRequest none okServer getProfileData defaultOptions).2.length = 1 ∧
    ((sendCommonApiRequest none okServer fetchMethodData defaultOptions).1 =
        Except.error (SendError.unsupportedMethod fetchMethodData.method) ∧
      (sendCommonApiRequest none okServer fetchMethodData defaultOptions).2 = []) :=
  ⟨(C6_method_dispatch none okServer getProfileData defaultOptions).1 (by decide),
    (C6_method_dispatch none okServer fetchMethodData defaultOptions).2 (by decide)⟩

/-- C1: each dispatching call makes exactly one axios call, whose response
status gates the outcome: status < 400 returns successfully for either value
of `allowBadRequest`; status ≥ 400 with `allowBadRequest` false (the
default) throws the axios status error; status ≥ 400 with `allowBadRequest`
true returns the structured response instead of throwing. -/
theorem C1_status_gating (envApi : Option String)
    (server : AxiosRequest → AxiosResponse) (data : CommonApiData)
    (options : CommonApiOptions) (hm : data.method ∈ HttpMethods) :
    (sendCommonApiRequest envApi server data options).2.length = 1 ∧
    ∀ req ∈ (sendCommonApiRequest envApi server data options).2,
      ((server req).status < 400 →
        sendSucceeds (sendCommonApiRequest envApi server data options).1 = true) ∧
      (400 ≤ (server req).status →
        (options.allowBadRequest).getD false = false →
        (sendCommonApiRequest envApi server data options).1 =
          Except.error (SendError.statusError (server req))) ∧
      (400 ≤ (server req).status →
        (options.allowBadRequest).getD false = true →
        sendSucceeds (sendCommonApiRequest envApi server data options).1 = true) := by
  rw [sendCommonApiRequest_recognized envApi server data options hm]
  by_cases hab : (options.allowBadRequest).getD false = true <;>
  rcases Decidable.em ((server (builtRequest envApi data)).status < 400) with hs | hs
  · rw [if_pos (by simp [hab])]
    refine ⟨rfl, ?_⟩
    intro req hreq
    simp only [List.mem_singleton] at hreq
    subst hreq
    exact ⟨fun _ => rfl, fun h _ => absurd hs (by omega), fun _ _ => rfl⟩
  · rw [if_pos (by simp [hab])]
    refine ⟨rfl, ?_⟩
    intro req hreq
    simp only [List.mem_singleton] at hreq
    subst hreq
    refine ⟨fun _ => rfl, fun _ hf => ?_, fun _ _ => rfl⟩
    rw [hab] at hf
    cases hf
  · rw [if_pos (by simp [hs])]
    refine ⟨rfl, ?_⟩
    intro req hreq
    simp only [List.mem_singleton] at hreq
    subst hreq
    exact ⟨fun _ => rfl, fun h _ => absurd hs (by omega), fun _ _ => rfl⟩
  · rw [if_neg (by simp [Bool.eq_false_iff.mpr hab, hs])]
    refine ⟨rfl, ?_⟩
    intro req hreq
    simp only [List.mem_singleton] at hreq
    subst hreq
    exact ⟨fun h => absurd h hs, fun _ _ => rfl, fun _ hf => absurd hf hab⟩

/-- Witness for C1: a 200 answer returns; a 401 answer under `{}` throws the
status error; a 401 answer under `{ allowBadRequest: true }` returns. -/
theorem C1_witness :
    getProfileData.method ∈ HttpMethods ∧
    (∀ req ∈ (sendCommonApiRequest none badServer getProfileData defaultOptions).2,
      ((badServer req).status < 400 →
        sendSucceeds (sendCommonApiRequest none badServer getProfileData defaultOptions).1 = true) ∧
      (400 ≤ (badServer req).status →
        (defaultOptions.allowBadRequest).getD false = false →
        (sendCommonApiRequest none badServer getProfileData defaultOptions).1 =
          Except.error (SendError.statusError (badServer req))) ∧
      (400 ≤ (badServer req).status →
        (defaultOptions.allowBadRequest).getD false = true →
        sendSucceeds (sendCommonApiRequest none badServer getProfileData defaultOptions).1 = true)) ∧
    (∀ req ∈ (sendCommonApiRequest none badServer getProfileData allowOptions).2,
      ((badServer req).status < 400 →
        sendSucceeds (sendCommonApiRequest none badServer getProfileData allowOptions).1 = true) ∧
      (400 ≤ (badServer req).status →
        (allowOptions.allowBadRequest).getD false = false →
        (sendCommonApiRequest none badServer getProfileData allowOptions).1 =
          Except.error (SendError.statusError (badServer req))) ∧
      (400 ≤ (badServer req).status →
        (allowOptions.allowBadRequest).getD false = true →
        sendSucceeds (sendCommonApiRequest none badServer getProfileData allowOptions).1 = true)) :=
  ⟨by decide,
    (C1_status_gating none badServer getProfileData defaultOptions (by decide)).2,
    (C1_status_gating none badServer getProfileData allowOptions (by decide)).2⟩

/-- C2: when a dispatching call returns a value `v`, that value's shape is
selected by `options.returnType`: absent or `'data'` yields the payload
alone, `'both'` yields the record of raw response and payload, `'full'`
yields the raw response alone. -/
theorem C2_returnType_selects_shape (envApi : Option String)
    (server : AxiosRequest → AxiosResponse) (data : CommonApiData)
    (options : CommonApiOptions) (v : SendReturn)
    (hm : data.method ∈ HttpMethods)
    (hok : (sendCommonApiRequest envApi server data options).1 = Except.ok v) :
    ∀ req ∈ (sendCommonApiRequest envApi server data options).2,
      ((options.returnType = some "data" ∨ options.returnType = none) →
        v = SendReturn.payload (server req).data) ∧
      (options.returnType = some "both" →
        v = SendReturn.both (server req) (server req).data) ∧
      (options.returnType = some "full" → v = SendReturn.full (server req)) := by
  rw [sendCommonApiRequest_recognized envApi server data options hm] at hok ⊢
  rcases Decidable.em ((server (builtRequest envApi data)).status < 400) with hs | hs <;>
  by_cases hab : (options.allowBadRequest).getD false = true <;>
  rcases hrt : options.returnType with _ | rt <;>
  by_cases h1 : (options.returnType).getD "data" = "data" <;>
  by_cases h2 : (options.returnType).getD "data" = "both" <;>
  by_cases h3 : (options.returnType).getD "data" = "full" <;>
  simp_all

/-- Witness for C2 at `returnType: 'both'` against a 200 server. -/
theorem C2_witness :
    getProfileData.method ∈ HttpMethods ∧
    (sendCommonApiRequest none okServer getProfileData bothOptions).1 =
      Except.ok (SendReturn.both ⟨200, "ok"⟩ "ok") ∧
    ∀ req ∈ (sendCommonApiRequest none okServer getProfileData bothOptions).2,
      ((bothOptions.returnType = some "data" ∨ bothOptions.returnType = none) →
        SendReturn.both ⟨200, "ok"⟩ "ok" = SendReturn.payload (okServer req).data) ∧
      (bothOptions.returnType = some "both" →
        SendReturn.both ⟨200, "ok"⟩ "ok" =
          SendReturn.both (okServer req) (okServer req).data) ∧
      (bothOptions.returnType = some "full" →
        SendReturn.both ⟨200, "ok"⟩ "ok" = SendReturn.full (okServer req)) :=
  ⟨by decide, by rfl,
    C2_returnType_selects_shape none okServer getProfileData bothOptions
      (SendReturn.both ⟨200, "ok"⟩ "ok") (by decide) (by rfl)⟩

/-- On a recognized method the dispatched calls are exactly the one built
request. -/
lemma send_calls_recognized (envApi : Option String)
    (server : AxiosRequest → AxiosResponse) (data : CommonApiData)
    (options : CommonApiOptions) (hm : data.method ∈ HttpMethods) :
    (sendCommonApiRequest envApi server data options).2 =
      [builtRequest envApi data] := by
  rw [sendCommonApiRequest_recognized envApi server data options hm]
  split <;> rfl

/-- C5 counterexample: with a caller-supplied empty-string token (supplied,
not omitted), the dispatched Authorization header is the placeholder
`Bearer token`, not `Bearer ` followed by the supplied token — `token ||
'token'` falls back on any falsy string, not only on an omitted one. -/
theorem C5_counterexample :
    ((sendCommonApiRequest none okServer emptyTokenData defaultOptions).2.map
        AxiosRequest.headers) =
      [[("accept", "*/*"), ("Content-Type", "application/json"),
        ("Authorization", "Bearer token")]] ∧
    ("Bearer token" : String) ≠ "Bearer " ++ "" :=
  ⟨by rfl, by decide⟩

/-- C5 (amended): every dispatched request's headers contain
`accept: */*`, `Content-Type: application/json`, and
`Authorization: Bearer <t>` where `<t>` is the caller's token when it is
present and non-empty, and the placeholder `token` when the token is
omitted or empty; in particular every outgoing request carries an
Authorization header. -/
theorem C5_amended_headers (envApi : Option String)
    (server : AxiosRequest → AxiosResponse) (data : CommonApiData)
    (options : CommonApiOptions) (hm : data.method ∈ HttpMethods) :
    ∀ req ∈ (sendCommonApiRequest envApi server data options).2,
      ("accept", "*/*") ∈ req.headers ∧
      ("Content-Type", "application/json") ∈ req.headers ∧
      ("Authorization", "Bearer " ++ jsOr data.token "token") ∈ req.headers := by
  rw [send_calls_recognized envApi server data options hm]
  intro req hreq
  simp only [List.mem_singleton] at hreq
  subst hreq
  have hne : jsOr data.token "token" ≠ "" := by
    rcases h : data.token with _ | t <;> simp only [h, jsOr]
    · decide
    · by_cases ht : t = ""
      · simp [ht]
      · simp [ht]
  have hh : (builtRequest envApi data).headers =
      generateCommonHeaders (jsOr data.token "token") := rfl
  rw [hh]
  simp only [generateCommonHeaders]
  rw [if_pos hne]
  exact ⟨by simp, by simp, by simp⟩

/-- Witness for C5 (amended), once with a supplied token and once without. -/
theorem C5_witness :
    getProfileData.method ∈ HttpMethods ∧
    (∀ req ∈ (sendCommonApiRequest none okServer getProfileData defaultOptions).2,
      ("accept", "*/*") ∈ req.headers ∧
      ("Content-Type", "application/json") ∈ req.headers ∧
      ("Authorization", "Bearer " ++ jsOr getProfileData.token "token") ∈ req.headers) ∧
    (∀ req ∈ (sendCommonApiRequest none okServer noBaseData defaultOptions).2,
      ("accept", "*/*") ∈ req.headers ∧
      ("Content-Type", "application/json") ∈ req.headers ∧
      ("Authorization", "Bearer " ++ jsOr noBaseData.token "token") ∈ req.headers) :=
  ⟨by decide,
    C5_amended_headers none okServer getProfileData defaultOptions (by decide),
    C5_amended_headers none okServer noBaseData defaultOptions (by decide)⟩

/-- C8 counterexample: with `API_BASE_URL` present in the environment as the
empty string and no `descriptor.baseUrl`, the request URL uses the literal
default `http://localhost:3000/api`, not the environment value — the code
falls back to `process.env.API_BASE_URL || 'http://localhost:3000/api'`,
not to the environment value itself. -/
theorem C8_counterexample :
    ((sendCommonApiRequest (some "") okServer noBaseData defaultOptions).2.map
        AxiosRequest.url) = ["http://localhost:3000/api/x"] ∧
    ("http://localhost:3000/api/x" : String) ≠ "" ++ "/" ++ "x" :=
  ⟨by rfl, by decide⟩

/-- C8 (amended): a supplied `descriptor.baseUrl` is always used; when it is
absent the base URL falls back to the `API_BASE_URL` environment value when
that is set and non-empty, and otherwise to the literal default
`http://localhost:3000/api`. -/
theorem C8_amended_base_url (envApi : Option String)
    (server : AxiosRequest → AxiosResponse) (data : CommonApiData)
    (options : CommonApiOptions) (hm : data.method ∈ HttpMethods) :
    ∀ req ∈ (sendCommonApiRequest envApi server data options).2,
      (∀ b, data.baseUrl = some b → req.url = b ++ "/" ++ data.endpoint) ∧
      (data.baseUrl = none → ∀ v, envApi = some v → v ≠ "" →
        req.url = v ++ "/" ++ data.endpoint) ∧
      (data.baseUrl = none → (envApi = none ∨ envApi = some "") →
        req.url = "http://localhost:3000/api" ++ "/" ++ data.endpoint) := by
  rw [send_calls_recognized envApi server data options hm]
  intro req hreq
  simp only [List.mem_singleton] at hreq
  subst hreq
  refine ⟨?_, ?_, ?_⟩
  · intro b hb
    simp [builtRequest, hb]
  · intro h v hv hvne
    simp [builtRequest, h, hv, jsOr, hvne]
  · intro h henv
    rcases henv with hv | hv <;> simp [builtRequest, h, hv, jsOr]

/-- Witness for C8 (amended): an explicit override and an env fallback. -/
theorem C8_witness :
    getProfileData.method ∈ HttpMethods ∧
    (∀ req ∈ (sendCommonApiRequest (some "https://api.env") okServer getProfileData defaultOptions).2,
      (∀ b, getProfileData.baseUrl = some b → req.url = b ++ "/" ++ getProfileData.endpoint) ∧
      (getProfileData.baseUrl = none → ∀ v, (some "https://api.env" : Option String) = some v → v ≠ "" →
        req.url = v ++ "/" ++ getProfileData.endpoint) ∧
      (getProfileData.baseUrl = none → ((some "https://api.env" : Option String) = none ∨ (some "https://api.env" : Option String) = some "") →
        req.url = "http://localhost:3000/api" ++ "/" ++ getProfileData.endpoint)) ∧
    (∀ req ∈ (sendCommonApiRequest (some "https://api.env") okServer noBaseData defaultOptions).2,
      (∀ b, noBaseData.baseUrl = some b → req.url = b ++ "/" ++ noBaseData.endpoint) ∧
      (noBaseData.baseUrl = none → ∀ v, (some "https://api.env" : Option String) = some v → v ≠ "" →
        req.url = v ++ "/" ++ noBaseData.endpoint) ∧
      (noBaseData.baseUrl = none → ((some "https://api.env" : Option String) = none ∨ (some "https://api.env" : Option String) = some "") →
        req.url = "http://localhost:3000/api" ++ "/" ++ noBaseData.endpoint)) :=
  ⟨by decide,
    C8_amended_base_url (some "https://api.env") okServer getProfileData defaultOptions (by decide),
    C8_amended_base_url (some "https://api.env") okServer noBaseData defaultOptions (by decide)⟩

/-- C3 counterexample: an input whose `auth` group is entirely omitted makes
`urlsSchema.parse` throw a `Required` issue naming `auth` — no defaults are
substituted for the omitted group and no validated mapping is produced,
because the nested group objects carry no `.default` of their own. -/
theorem C3_counterexample :
    urlsSchemaParse missingAuthInput = Except.error ["auth"] := by rfl

/-- C3 (amended): when every endpoint group key is present in the input,
the parse succeeds, every entry omitted inside a group is substituted with
its documented default path, and the validated mapping contains every
schema-declared key (it is a total `UrlsConfig`); an entirely omitted group
instead fails validation. -/
theorem C3_amended_leaf_defaults (input : UrlsInput) (a : AuthUrlsInput)
    (u : UsersUrlsInput) (t : TemplateUrlsInput) (ha : input.auth = some a)
    (hu : input.users = some u) (ht : input.template = some t) :
    ∃ cfg : UrlsConfig, urlsSchemaParse input = Except.ok cfg ∧
      (a.login = none → cfg.auth.login = "auth/login") ∧
      (a.logout = none → cfg.auth.logout = "auth/logout") ∧
      (a.refresh = none → cfg.auth.refresh = "auth/refresh") ∧
      (u.profile = none → cfg.users.profile = "users/profile") ∧
      (u.create = none → cfg.users.create = "users") ∧
      (u.update = none → cfg.users.update = "users") ∧
      (u.delete = none → cfg.users.delete = "users") ∧
      (t.getData = none → cfg.template.getData = "template/data") ∧
      (t.postData = none → cfg.template.postData = "template/data") ∧
      (t.updateData = none → cfg.template.updateData = "template/data") ∧
      (t.deleteData = none → cfg.template.deleteData = "template/data") := by
  refine ⟨⟨parseAuthUrls a, parseUsersUrls u, parseTemplateUrls t⟩, ?_,
    ?_, ?_, ?_, ?_, ?_, ?_, ?_, ?_, ?_, ?_, ?_⟩
  · simp [urlsSchemaParse, ha, hu, ht]
  all_goals intro h
  all_goals simp [parseAuthUrls, parseUsersUrls, parseTemplateUrls, h]

/-- Witness for C3 (amended): all groups present, all leaves omitted. -/
theorem C3_witness :
    emptyGroupsInput.auth = some ⟨none, none, none⟩ ∧
    emptyGroupsInput.users = some ⟨none, none, none, none⟩ ∧
    emptyGroupsInput.template = some ⟨none, none, none, none⟩ ∧
    (∃ cfg : UrlsConfig, urlsSchemaParse emptyGroupsInput = Except.ok cfg ∧
      ((⟨none, none, none⟩ : AuthUrlsInput).login = none → cfg.auth.login = "auth/login") ∧
      ((⟨none, none, none⟩ : AuthUrlsInput).logout = none → cfg.auth.logout = "auth/logout") ∧
      ((⟨none, none, none⟩ : AuthUrlsInput).refresh = none → cfg.auth.refresh = "auth/refresh") ∧
      ((⟨none, none, none, none⟩ : UsersUrlsInput).profile = none → cfg.users.profile = "users/profile") ∧
      ((⟨none, none, none, none⟩ : UsersUrlsInput).create = none → cfg.users.create = "users") ∧
      ((⟨none, none, none, none⟩ : UsersUrlsInput).update = none → cfg.users.update = "users") ∧
      ((⟨none, none, none, none⟩ : UsersUrlsInput).delete = none → cfg.users.delete = "users") ∧
      ((⟨none, none, none, none⟩ : TemplateUrlsInput).getData = none → cfg.template.getData = "template/data") ∧
      ((⟨none, none, none, none⟩ : TemplateUrlsInput).postData = none → cfg.template.postData = "template/data") ∧
      ((⟨none, none, none, none⟩ : TemplateUrlsInput).updateData = none → cfg.template.updateData = "template/data") ∧
      ((⟨none, none, none, none⟩ : TemplateUrlsInput).deleteData = none → cfg.template.deleteData = "template/data")) :=
  ⟨rfl, rfl, rfl,
    C3_amended_leaf_defaults emptyGroupsInput ⟨none, none, none⟩
      ⟨none, none, none, none⟩ ⟨none, none, none, none⟩ rfl rfl rfl⟩

/-- C4: for every environment input in which the four required variables are
valid (both URLs satisfy the URL check, both credentials are non-empty), the
loader returns the configuration object of exactly those four validated
values; and for every field that is missing or malformed, the parse throws
an error whose issue list names that field — it never returns an object.
The absolute-URL check itself is the validation library's, abstracted as the
parameter `isUrl`. -/
theorem C4_env_loader (isUrl : String → Bool) (input : EnvInput) :
    (∀ b a l p, input.BASE_URL = some b → isUrl b = true →
      input.API_BASE_URL = some a → isUrl a = true →
      input.MAIN_USER_LOGIN = some l → l ≠ "" →
      input.MAIN_USER_PASSWORD = some p → p ≠ "" →
      schemaParse isUrl input = Except.ok ⟨b, a, l, p⟩) ∧
    (urlFieldBad isUrl input.BASE_URL →
      ∃ errs, schemaParse isUrl input = Except.error errs ∧ "BASE_URL" ∈ errs) ∧
    (urlFieldBad isUrl input.API_BASE_URL →
      ∃ errs, schemaParse isUrl input = Except.error errs ∧ "API_BASE_URL" ∈ errs) ∧
    (credFieldBad input.MAIN_USER_LOGIN →
      ∃ errs, schemaParse isUrl input = Except.error errs ∧ "MAIN_USER_LOGIN" ∈ errs) ∧
    (credFieldBad input.MAIN_USER_PASSWORD →
      ∃ errs, schemaParse isUrl input = Except.error errs ∧ "MAIN_USER_PASSWORD" ∈ errs) := by
  refine ⟨?_, ?_, ?_, ?_, ?_⟩
  · intro b a l p hb hub ha hua hl hln hp hpn
    have hiss : envIssues isUrl input = [] := by
      simp [envIssues, checkUrlField, checkNonEmptyField,
        hb, hub, ha, hua, hl, hln, hp, hpn]
    simp [schemaParse, hiss, hb, ha, hl, hp]
  · intro hbad
    have hmem : "BASE_URL" ∈ envIssues isUrl input := by
      unfold envIssues
      rw [checkUrlField_of_bad isUrl "BASE_URL" input.BASE_URL hbad]
      simp
    exact ⟨envIssues isUrl input,
      schemaParse_error_of_mem isUrl input "BASE_URL" hmem, hmem⟩
  · intro hbad
    have hmem : "API_BASE_URL" ∈ envIssues isUrl input := by
      unfold envIssues
      rw [checkUrlField_of_bad isUrl "API_BASE_URL" input.API_BASE_URL hbad]
      simp
    exact ⟨envIssues isUrl input,
      schemaParse_error_of_mem isUrl input "API_BASE_URL" hmem, hmem⟩
  · intro hbad
    have hmem : "MAIN_USER_LOGIN" ∈ envIssues isUrl input := by
      unfold envIssues
      rw [checkNonEmptyField_of_bad "MAIN_USER_LOGIN" input.MAIN_USER_LOGIN hbad]
      simp
    exact ⟨envIssues isUrl input,
      schemaParse_error_of_mem isUrl input "MAIN_USER_LOGIN" hmem, hmem⟩
  · intro hbad
    have hmem : "MAIN_USER_PASSWORD" ∈ envIssues isUrl input := by
      unfold envIssues
      rw [checkNonEmptyField_of_bad "MAIN_USER_PASSWORD" input.MAIN_USER_PASSWORD hbad]
      simp
    exact ⟨envIssues isUrl input,
      schemaParse_error_of_mem isUrl input "MAIN_USER_PASSWORD" hmem, hmem⟩

/-- Witness for C4: a valid environment yields exactly the four fields; the
same environment with `MAIN_USER_PASSWORD` removed throws an error naming
`MAIN_USER_PASSWORD`. -/
theorem C4_witness :
    schemaParse startsHttps goodEnvInput =
      Except.ok ⟨"https://x.test", "https://x.test/api", "u@x.test", "p"⟩ ∧
    (∃ errs, schemaParse startsHttps badEnvInput = Except.error errs ∧
      "MAIN_USER_PASSWORD" ∈ errs) :=
  ⟨(C4_env_loader startsHttps goodEnvInput).1 "https://x.test"
      "https://x.test/api" "u@x.test" "p" rfl (by decide) rfl (by decide)
      rfl (by decide) rfl (by decide),
    (C4_env_loader startsHttps badEnvInput).2.2.2.2 (Or.inl rfl)⟩
